import Mathlib

/-!
Shallow embedding of the Goal Progress & Streak Engine and the deterministic
Health-Signal Scoring functions of the NEUTRON_BurgerGang backend
(`src/backend/models/HealthGoal.js`, `src/backend/services/aiService.js`,
`src/backend/controllers/goalController.js`).

JavaScript numbers are modelled by `JNum` (finite rational, NaN, ±Infinity);
the dynamically typed `Mixed` fields (check-in `value`, `metrics.current`,
`metrics.target`) by `JsVal`.  Dates are modelled as integer millisecond
timestamps.  `Array.prototype.sort` with comparator `(a, b) => b.date - a.date`
is an in-place stable descending sort; it is modelled by `sortDesc`
(insertion sort, which computes exactly the stable descending reordering),
and the in-place mutation is made explicit in the `...Run` state-passing
versions of the two goal methods.
-/

namespace BurgerGang

-- Rational arithmetic must evaluate inside `decide` proofs below.
attribute [local semireducible] Rat.add Rat.mul Rat.sub Rat.inv

/-- A JavaScript number: NaN, +Infinity, -Infinity, or a finite value
(modelled as an exact rational; -0 is identified with 0). -/
inductive JNum where
  | nan : JNum
  | inf : JNum
  | ninf : JNum
  | fin : ℚ → JNum
deriving DecidableEq

/-- JS `Math.round` on a finite value: round half toward positive infinity. -/
def jsRoundQ (q : ℚ) : ℤ := ⌊q + 1/2⌋

/-- JS unary negation on numbers. -/
def jneg : JNum → JNum
  | .nan => .nan
  | .inf => .ninf
  | .ninf => .inf
  | .fin q => .fin (-q)

/-- JS addition on numbers (`Infinity + -Infinity` is NaN). -/
def jadd : JNum → JNum → JNum
  | .nan, _ => .nan
  | _, .nan => .nan
  | .inf, .ninf => .nan
  | .ninf, .inf => .nan
  | .inf, _ => .inf
  | .ninf, _ => .ninf
  | .fin _, .inf => .inf
  | .fin _, .ninf => .ninf
  | .fin a, .fin b => .fin (a + b)

/-- JS subtraction on numbers. -/
def jsub (a b : JNum) : JNum := jadd a (jneg b)

/-- JS division on numbers: `x / 0` is ±Infinity (sign of `x`), `0 / 0` and
`NaN`-involving divisions are NaN, finite / infinite is 0. -/
def jdiv : JNum → JNum → JNum
  | .nan, _ => .nan
  | _, .nan => .nan
  | .inf, .inf => .nan
  | .inf, .ninf => .nan
  | .ninf, .inf => .nan
  | .ninf, .ninf => .nan
  | .inf, .fin q => if q < 0 then .ninf else .inf
  | .ninf, .fin q => if q < 0 then .inf else .ninf
  | .fin _, .inf => .fin 0
  | .fin _, .ninf => .fin 0
  | .fin a, .fin b =>
    if b = 0 then (if a > 0 then .inf else if a < 0 then .ninf else .nan)
    else .fin (a / b)

/-- Multiplication by the positive literal 100. -/
def jmul100 : JNum → JNum
  | .nan => .nan
  | .inf => .inf
  | .ninf => .ninf
  | .fin a => .fin (a * 100)

/-- JS `Math.round` on a JS number (NaN and infinities unchanged). -/
def jround : JNum → JNum
  | .nan => .nan
  | .inf => .inf
  | .ninf => .ninf
  | .fin a => .fin (jsRoundQ a)

/-- JS `Math.min(x, 100)` (NaN propagates). -/
def jmin100 : JNum → JNum
  | .nan => .nan
  | .inf => .fin 100
  | .ninf => .ninf
  | .fin a => .fin (min a 100)

/-- JS `Math.abs`. -/
def jabs : JNum → JNum
  | .nan => .nan
  | .inf => .inf
  | .ninf => .inf
  | .fin a => .fin |a|

/-- JS comparison `x < c` against a finite constant (false on NaN). -/
def jltQ : JNum → ℚ → Bool
  | .nan, _ => false
  | .inf, _ => false
  | .ninf, _ => true
  | .fin a, c => a < c

/-- JS comparison `x > c` against a finite constant (false on NaN). -/
def jgtQ : JNum → ℚ → Bool
  | .nan, _ => false
  | .inf, _ => true
  | .ninf, _ => false
  | .fin a, c => c < a

/-- JS comparison `x >= c` against a finite constant (false on NaN). -/
def jgeQ : JNum → ℚ → Bool
  | .nan, _ => false
  | .inf, _ => true
  | .ninf, _ => false
  | .fin a, c => c ≤ a

/-- JS comparison `x <= c` against a finite constant (false on NaN). -/
def jleQ : JNum → ℚ → Bool
  | .nan, _ => false
  | .inf, _ => false
  | .ninf, _ => true
  | .fin a, c => a ≤ c

/-- A JavaScript value as stored in the `Mixed`-typed fields of the schema:
`undefined`, `null`, a number, a nonempty string that parses to a finite
number, a nonempty string that does not parse, or a
`{ systolic, diastolic }` object.  (Strings outside this scope - the empty
string and strings such as "12px" that `parseFloat` and `Number` treat
differently - do not occur in the analysed paths.) -/
inductive JsVal where
  | undefined : JsVal
  | jsnull : JsVal
  | num : ℚ → JsVal
  | strNum : ℚ → JsVal
  | strBad : JsVal
  | obj : JsVal → JsVal → JsVal
deriving DecidableEq

/-- JS truthiness: `undefined`, `null`, `0` are falsy; nonempty strings and
objects are truthy. -/
def truthy : JsVal → Bool
  | .undefined => false
  | .jsnull => false
  | .num q => q ≠ 0
  | .strNum _ => true
  | .strBad => true
  | .obj _ _ => true

/-- JS `parseFloat`: numbers and numeric strings give their value; `null`,
`undefined`, non-numeric strings and objects give NaN. -/
def parseF : JsVal → JNum
  | .num q => .fin q
  | .strNum q => .fin q
  | _ => .nan

/-- JS `ToNumber` coercion as used by arithmetic and relational operators:
like `parseFloat` except `null` coerces to 0. -/
def toNum : JsVal → JNum
  | .jsnull => .fin 0
  | .num q => .fin q
  | .strNum q => .fin q
  | _ => .nan

/-- Member access `v.systolic`.  On `null`/`undefined` receivers the source
would throw a TypeError; that (unreachable in the verified paths) case is
modelled as `undefined`.  On other non-object values JS yields `undefined`. -/
def getS : JsVal → JsVal
  | .obj s _ => s
  | _ => .undefined

/-- Member access `v.diastolic` (same conventions as `getS`). -/
def getD : JsVal → JsVal
  | .obj _ d => d
  | _ => .undefined

/-- The test `typeof v === 'object' && v !== null`. -/
def isObj : JsVal → Bool
  | .obj _ _ => true
  | _ => false

/-- Goal `status` enum of the `HealthGoal` schema. -/
inductive Status where
  | active : Status
  | completed : Status
  | abandoned : Status
deriving DecidableEq

/-- Goal `frequency` enum of the `HealthGoal` schema. -/
inductive Freq where
  | daily : Freq
  | weekly : Freq
  | monthly : Freq
  | custom : Freq
deriving DecidableEq

/-- One entry of the `checkIns` array: date (ms timestamp), completion flag,
`Mixed` value, optional notes. -/
structure CheckIn where
  date : ℤ
  completed : Bool
  value : JsVal
  notes : Option String
deriving DecidableEq

/-- The fields of a `HealthGoal` document that the Goal Progress & Streak
Engine reads or writes. -/
structure Goal where
  status : Status
  progress : JNum
  current : JsVal
  target : JsVal
  frequency : Freq
  streak : ℕ
  checkIns : List CheckIn
  completedDate : Option ℤ
deriving DecidableEq

/-- The comparator `(a, b) => new Date(b.date) - new Date(a.date)` keeps `a`
before `b` exactly when `b.date ≤ a.date`. -/
def dateGE (a b : CheckIn) : Prop := b.date ≤ a.date

instance : DecidableRel dateGE := fun a b => inferInstanceAs (Decidable (b.date ≤ a.date))

instance : IsTotal CheckIn dateGE := ⟨fun a b => le_total b.date a.date⟩

instance : IsTrans CheckIn dateGE := ⟨fun _ _ _ h1 h2 => le_trans h2 h1⟩

/-- The result of the in-place `this.checkIns.sort((a, b) => new Date(b.date)
- new Date(a.date))`: the stable descending-by-date reordering, computed here
by insertion sort (any stable sort computes the same list). -/
def sortDesc (l : List CheckIn) : List CheckIn := l.insertionSort dateGE

/-!
## `HealthGoalSchema.methods.calculateProgress` (HealthGoal.js lines 136-176)

`calcCoreFields` is the returned value as a function of the five fields the
method reads (`metrics.target`, `metrics.current`, `status`, the cached
`progress`, `checkIns`); `calculateProgressRun` additionally records the one
mutation the method performs, the in-place descending sort of `checkIns`
(executed only once control reaches line 148).
-/

/-- Lines 159-161: blood-pressure progress,
`Math.min(Math.round((systolicProgress + diastolicProgress) / 2), 100)`. -/
def bpFormula (latestVal target : JsVal) : JNum :=
  jmin100 (jround (jdiv
    (jadd
      (jmul100 (jdiv (toNum (getS latestVal)) (toNum (getS target))))
      (jmul100 (jdiv (toNum (getD latestVal)) (toNum (getD target)))))
    (JNum.fin 2)))

/-- Line 172: `Math.min(Math.round((currentValue / targetValue) * 100), 100)`. -/
def numFormula (cv tv : ℚ) : JNum :=
  jmin100 (jround (jmul100 (jdiv (JNum.fin cv) (JNum.fin tv))))

/-- Lines 157-162: the object-valued `metrics.current` case.
`if (this.metrics.target.systolic && this.metrics.target.diastolic)` computes
the blood-pressure formula, otherwise control falls through to
`return this.progress` (line 175). -/
def objBranch (latestVal target : JsVal) (progress : JNum) : JNum :=
  if truthy (getS target) && truthy (getD target) then bpFormula latestVal target
  else progress

/-- Lines 164-172: the plain-value case.  `parseFloat` both sides; if either
is NaN return the cached progress, else the capped percentage. -/
def numBranch (cv tv : JNum) (progress : JNum) : JNum :=
  match cv, tv with
  | JNum.fin a, JNum.fin b => numFormula a b
  | _, _ => progress

/-- Lines 154-175: dispatch on
`typeof this.metrics.current === 'object' && this.metrics.current !== null`. -/
def latestBranch (current latestVal target : JsVal) (progress : JNum) : JNum :=
  if isObj current then objBranch latestVal target progress
  else numBranch (parseF latestVal) (parseF target) progress

/-- Value computed by `calculateProgress`, as a function of the fields read. -/
def calcCoreFields (target current : JsVal) (status : Status) (progress : JNum)
    (checkIns : List CheckIn) : JNum :=
  -- if (!this.metrics.target) return this.progress;
  if truthy target = false then progress
  -- if (this.status === 'completed') return 100;
  else if status = Status.completed then JNum.fin 100
  -- if (this.checkIns.length === 0) return 0;  (sortDesc l = [] iff l = [])
  else
    match sortDesc checkIns with
    | [] => JNum.fin 0
    | latest :: _ => latestBranch current latest.value target progress

/-- The value `goal.calculateProgress()` returns. -/
def calculateProgress (g : Goal) : JNum :=
  calcCoreFields g.target g.current g.status g.progress g.checkIns

/-- The method call `goal.calculateProgress()` with its in-place mutation made
explicit: the goal state afterwards (the `checkIns` array is sorted in place
when execution reaches line 148) and the returned value. -/
def calculateProgressRun (g : Goal) : Goal × JNum :=
  (if truthy g.target = false ∨ g.status = Status.completed ∨ g.checkIns.isEmpty then g
   else { g with checkIns := sortDesc g.checkIns },
   calculateProgress g)

/-!
## `HealthGoalSchema.methods.updateStreak` (HealthGoal.js lines 179-221)
-/

/-- The day count `Math.round(diffTime / (1000 * 60 * 60 * 24))` for `diffTime` = difference
of two millisecond timestamps. -/
def dayDiff (prev cur : ℤ) : ℤ := jsRoundQ (((prev - cur : ℤ) : ℚ) / 86400000)

/-- Expected day gap: 1 default (daily and custom), 7 weekly, 30 monthly. -/
def expectedDiff : Freq → ℤ
  | Freq.weekly => 7
  | Freq.monthly => 30
  | _ => 1

/-- The `for` loop of `updateStreak` (lines 197-218): walks the sorted tail,
counting check-ins while each is completed and exactly the expected gap from
the previous one. -/
def streakLoop (f : Freq) (prev : ℤ) : List CheckIn → ℕ
  | [] => 0
  | c :: cs =>
    if c.completed = false ∨ dayDiff prev c.date ≠ expectedDiff f then 0
    else 1 + streakLoop f c.date cs

/-- Value computed by `updateStreak` from the check-in list and frequency. -/
def updateStreakList (l : List CheckIn) (f : Freq) : ℕ :=
  match sortDesc l with
  | [] => 0
  | latest :: rest =>
    -- if (!latestCheckIn.completed) return 0;  let streak = 1; ...
    if latest.completed = false then 0
    else 1 + streakLoop f latest.date rest

/-- The value `goal.updateStreak()` returns. -/
def updateStreak (g : Goal) : ℕ := updateStreakList g.checkIns g.frequency

/-- The method call `goal.updateStreak()` with its in-place mutation made
explicit (the sort at lines 183-184 runs unless `checkIns` is empty). -/
def updateStreakRun (g : Goal) : Goal × ℕ :=
  (if g.checkIns.isEmpty then g else { g with checkIns := sortDesc g.checkIns },
   updateStreak g)

/-!
## Controller mutations (goalController.js)
-/

/-- The test `goal.progress >= 100` (line 233). -/
def jge100 : JNum → Bool
  | JNum.nan => false
  | JNum.inf => true
  | JNum.ninf => false
  | JNum.fin a => (100 : ℚ) ≤ a

/-- Controller `addCheckIn` (goalController.js lines 218-238): push the new check-in,
recompute `progress` and `streak` (both method calls sort `checkIns` in
place), then flip the status to `completed` when `progress >= 100` and the
new check-in is completed. -/
def addCheckIn (g : Goal) (date : ℤ) (completed : Bool) (value : JsVal)
    (notes : Option String) (now : ℤ) : Goal :=
  let g1 : Goal :=
    { g with checkIns := g.checkIns ++
        [{ date := date, completed := completed, value := value, notes := notes }] }
  let r1 := calculateProgressRun g1
  let g2 : Goal := { r1.1 with progress := r1.2 }
  let r2 := updateStreakRun g2
  let g3 : Goal := { r2.1 with streak := r2.2 }
  if jge100 g3.progress && completed then
    { g3 with status := Status.completed, completedDate := some now }
  else g3

/-- A field-wise update document for `updateGoal`
(`HealthGoal.findByIdAndUpdate(req.params.id, req.body, ...)`, lines 148-151):
each provided field overwrites the stored one; nothing is recomputed. -/
structure GoalUpdate where
  status : Option Status := none
  progress : Option JNum := none
  current : Option JsVal := none
  target : Option JsVal := none
  frequency : Option Freq := none
  streak : Option ℕ := none
  checkIns : Option (List CheckIn) := none
deriving DecidableEq

/-- Effect of `updateGoal` on the stored goal: field-wise overwrite with the
request body, with no recomputation of `progress` or `streak`. -/
def updateGoal (g : Goal) (u : GoalUpdate) : Goal :=
  { status := u.status.getD g.status
    progress := u.progress.getD g.progress
    current := u.current.getD g.current
    target := u.target.getD g.target
    frequency := u.frequency.getD g.frequency
    streak := u.streak.getD g.streak
    checkIns := u.checkIns.getD g.checkIns
    completedDate := g.completedDate }

/-!
## Health-Signal Scoring (aiService.js)
-/

/-- The `type` field of a metric sample. -/
inductive MetricType where
  | heart_rate : MetricType
  | blood_pressure : MetricType
  | weight : MetricType
  | sleep : MetricType
  | steps : MetricType
  | other : MetricType
deriving DecidableEq

/-- One metric sample as consumed by the scoring functions. -/
structure Metric where
  type : MetricType
  value : JsVal
deriving DecidableEq

/-- The sum `metrics.reduce((sum, m) => sum + parseFloat(m.value), 0)`. -/
def sumParse (l : List Metric) : JNum :=
  l.foldl (fun acc m => jadd acc (parseF m.value)) (JNum.fin 0)

/-- Average of the parsed values of a metric list (`reduce(...) / length`). -/
def avgParse (l : List Metric) : JNum := jdiv (sumParse l) (JNum.fin l.length)

/-- Heart-rate contribution to `modifiers` (aiService.js lines 340-348):
average < 60 or > 100 gives -5; average in [60, 80] gives +5; otherwise 0;
no samples contribute nothing. -/
def hrModifier (metrics : List Metric) : ℤ :=
  let hrs := metrics.filter (fun m => m.type = MetricType.heart_rate)
  if hrs.length > 0 then
    let avg := avgParse hrs
    if jltQ avg 60 || jgtQ avg 100 then -5
    else if jgeQ avg 60 && jleQ avg 80 then 5
    else 0
  else 0

/-- Blood-pressure contribution (lines 351-364): fraction of samples with
systolic < 120 and diastolic < 80; above 0.8 gives +10, below 0.4 gives -10. -/
def bpModifier (metrics : List Metric) : ℤ :=
  let bps := metrics.filter (fun m => m.type = MetricType.blood_pressure)
  if bps.length > 0 then
    let optimal := bps.filter (fun m =>
      jltQ (toNum (getS m.value)) 120 && jltQ (toNum (getD m.value)) 80)
    let percentOptimal : ℚ := (optimal.length : ℚ) / (bps.length : ℚ)
    if percentOptimal > 8/10 then 10
    else if percentOptimal < 4/10 then -10
    else 0
  else 0

/-- Sleep contribution (lines 367-377): average in [7, 9] gives +8,
below 6 gives -8, in [6, 7) gives -4, otherwise 0. -/
def sleepModifier (metrics : List Metric) : ℤ :=
  let sleeps := metrics.filter (fun m => m.type = MetricType.sleep)
  if sleeps.length > 0 then
    let avg := avgParse sleeps
    if jgeQ avg 7 && jleQ avg 9 then 8
    else if jltQ avg 6 then -8
    else if jltQ avg 7 then -4
    else 0
  else 0

/-- Step-count contribution (lines 380-390): average at least 10000 gives
+10, at least 7500 gives +5, below 5000 gives -5, otherwise 0. -/
def stepModifier (metrics : List Metric) : ℤ :=
  let steps := metrics.filter (fun m => m.type = MetricType.steps)
  if steps.length > 0 then
    let avg := avgParse steps
    if jgeQ avg 10000 then 10
    else if jgeQ avg 7500 then 5
    else if jltQ avg 5000 then -5
    else 0
  else 0

/-- Function `calculateHealthScore` (aiService.js lines 334-399): base 70 plus the
accumulated modifiers, clamped to [0, 100] and rounded. -/
def calculateHealthScore (metrics : List Metric) : ℤ :=
  let modifiers : ℤ :=
    hrModifier metrics + bpModifier metrics + sleepModifier metrics + stepModifier metrics
  let finalScore : ℚ := 70 + (modifiers : ℚ)
  jsRoundQ (max 0 (min 100 finalScore))

/-- The three concern flags `identifyConcerns` can emit, standing for its
three constant strings (blood pressure above range / sleep varies
significantly / low physical activity). -/
inductive Concern where
  | bloodPressureHigh : Concern
  | sleepInconsistent : Concern
  | lowActivity : Concern
deriving DecidableEq

/-- The inner loop of the sleep-consistency check (lines 283-286): counts
indices `i ≥ 1` with `Math.abs(values[i] - values[i-1]) > 1.5`, in input
order, using raw JS subtraction on the `value` fields. -/
def countInconsistent : List Metric → ℕ
  | a :: b :: rest =>
    (if jgtQ (jabs (jsub (toNum b.value) (toNum a.value))) (3/2) then 1 else 0)
      + countInconsistent (b :: rest)
  | _ => 0

/-- Function `identifyConcerns` (aiService.js lines 267-303), with each emitted
sentence represented by its `Concern` tag purely; order of emission is
blood pressure, sleep, steps. -/
def identifyConcerns (metrics : List Metric) : List Concern :=
  let bps := metrics.filter (fun m => m.type = MetricType.blood_pressure)
  let c1 : List Concern :=
    if bps.length > 0 ∧
        ((bps.filter (fun m =>
            jgtQ (toNum (getS m.value)) 130 || jgtQ (toNum (getD m.value)) 80)).length : ℚ)
          > (bps.length : ℚ) / 2 then
      [Concern.bloodPressureHigh]
    else []
  let sleeps := metrics.filter (fun m => m.type = MetricType.sleep)
  let c2 : List Concern :=
    if sleeps.length > 3 ∧ (countInconsistent sleeps : ℚ) > (sleeps.length : ℚ) / 3 then
      [Concern.sleepInconsistent]
    else []
  let steps := metrics.filter (fun m => m.type = MetricType.steps)
  let c3 : List Concern :=
    if steps.length > 0 ∧
        ((steps.filter (fun m => jltQ (toNum m.value) 5000)).length : ℚ)
          > (steps.length : ℚ) / 2 then
      [Concern.lowActivity]
    else []
  c1 ++ c2 ++ c3

/-!
## Spec-side definitions

These follow the wording of the specification claims (not the source) and are
compared with the source-derived definitions above.
-/

/-- The expected gap named by the spec: 1 for daily, 7 for weekly, 30 for
monthly; no gap is defined for custom cadence. -/
def claimExpectedGap : Freq → Option ℤ
  | Freq.daily => some 1
  | Freq.weekly => some 7
  | Freq.monthly => some 30
  | Freq.custom => none

/-- The walk described by the spec: count successive check-ins (descending
date order) that are completed and whose day-gap from the previous check-in
exactly equals the expected gap, stopping at the first mismatch. -/
def claimWalk (gap : ℤ) (prev : ℤ) : List CheckIn → ℕ
  | [] => 0
  | c :: cs =>
    if c.completed = true ∧ dayDiff prev c.date = gap then 1 + claimWalk gap c.date cs
    else 0

/-- The streak described by the spec, for a defined expected gap: 0 on an
empty list or an incomplete latest check-in, otherwise 1 plus the walk. -/
def claimStreakGap (l : List CheckIn) (gap : ℤ) : ℕ :=
  match sortDesc l with
  | [] => 0
  | latest :: rest =>
    if latest.completed = true then 1 + claimWalk gap latest.date rest else 0

/-- The function `clamp(x, lo, hi)` as the spec words it. -/
def specClamp (lo hi x : ℚ) : ℚ := max lo (min hi x)

/-- The per-category contribution as the spec words it: a category
contributes its modifier only if at least one sample of that type exists. -/
def specContribution (metrics : List Metric) (t : MetricType) : ℤ :=
  if (metrics.filter (fun m => m.type = t)).isEmpty then 0
  else
    match t with
    | MetricType.heart_rate => hrModifier metrics
    | MetricType.blood_pressure => bpModifier metrics
    | MetricType.sleep => sleepModifier metrics
    | MetricType.steps => stepModifier metrics
    | _ => 0

/-- The spec formula for the health score: `clamp(70 + sum(modifiers), 0,
100)`, rounded to the nearest integer, each category contributing only when
present. -/
def specHealthScore (metrics : List Metric) : ℤ :=
  let total : ℤ :=
    ([MetricType.heart_rate, MetricType.blood_pressure, MetricType.sleep,
      MetricType.steps].map (specContribution metrics)).sum
  jsRoundQ (specClamp 0 100 (70 + (total : ℚ)))

/-- The sleep-variance condition as the claim words it: more than one-third
of the consecutive pairs of sleep samples (input order) differ by more than
1.5 hours. -/
def claimSleepFlag (metrics : List Metric) : Prop :=
  let sleeps := metrics.filter (fun m => m.type = MetricType.sleep)
  (countInconsistent sleeps : ℚ) > ((sleeps.length - 1 : ℕ) : ℚ) / 3

instance (metrics : List Metric) : Decidable (claimSleepFlag metrics) :=
  inferInstanceAs (Decidable (_ > _))

/-!
## Concrete example data used by witnesses and counterexamples
-/

/-- A check-in with the given date and completion flag and no value/notes. -/
def mkCheckIn (date : ℤ) (completed : Bool) : CheckIn :=
  { date := date, completed := completed, value := JsVal.undefined, notes := none }

/-- Milliseconds per day. -/
def dayMs : ℤ := 86400000

/-- Five consecutive completed daily check-ins with dates D, D-1, ..., D-4
(in days), D = 4. -/
def dailyFiveExample : List CheckIn :=
  [mkCheckIn (4 * dayMs) true, mkCheckIn (3 * dayMs) true, mkCheckIn (2 * dayMs) true,
   mkCheckIn (1 * dayMs) true, mkCheckIn 0 true]

/-- Goal used by the C1 counterexample: the invariant
`progress = calculateProgress` holds before the update. -/
def c1Goal : Goal :=
  { status := Status.active, progress := JNum.fin 50, current := JsVal.undefined,
    target := JsVal.num 10, frequency := Freq.daily, streak := 1,
    checkIns := [{ date := 0, completed := true, value := JsVal.num 5, notes := none }],
    completedDate := none }

/-- The C1 counterexample update: `PUT /api/goals/:id` body changing only
`metrics.target` from 10 to 20. -/
def c1Update : GoalUpdate := { target := some (JsVal.num 20) }

/-- Goal used by the C1 witness: a fresh active goal receiving its first
check-in. -/
def c1WitnessGoal : Goal :=
  { status := Status.active, progress := JNum.fin 0, current := JsVal.undefined,
    target := JsVal.num 10, frequency := Freq.daily, streak := 0,
    checkIns := [], completedDate := none }

/-- Goal used by the C2 counterexample: a numeric target 0 is falsy, and an
empty check-in list with a nonzero cached progress. -/
def c2Goal : Goal :=
  { status := Status.active, progress := JNum.fin 37, current := JsVal.undefined,
    target := JsVal.num 0, frequency := Freq.daily, streak := 0,
    checkIns := [], completedDate := none }

/-- Goal used by the C2 witness: truthy target, active status, no check-ins. -/
def c2WitnessGoal : Goal :=
  { status := Status.active, progress := JNum.fin 37, current := JsVal.undefined,
    target := JsVal.num 10, frequency := Freq.daily, streak := 0,
    checkIns := [], completedDate := none }

/-- Goal used by the C3 witness: the five consecutive completed daily
check-ins. -/
def c3Goal : Goal :=
  { status := Status.active, progress := JNum.fin 0, current := JsVal.undefined,
    target := JsVal.num 10, frequency := Freq.daily, streak := 0,
    checkIns := dailyFiveExample, completedDate := none }

/-- Metrics of the C4 example: heart-rate average 70, sleep average 8, steps
average 11000, no blood-pressure samples. -/
def c4Metrics : List Metric :=
  [{ type := MetricType.heart_rate, value := JsVal.num 70 },
   { type := MetricType.sleep, value := JsVal.num 8 },
   { type := MetricType.steps, value := JsVal.num 11000 }]

/-- Goal used by the C5 counterexample: latest check-in value -5, target 10. -/
def c5Goal : Goal :=
  { status := Status.active, progress := JNum.fin 0, current := JsVal.undefined,
    target := JsVal.num 10, frequency := Freq.daily, streak := 0,
    checkIns := [{ date := 0, completed := true, value := JsVal.num (-5), notes := none }],
    completedDate := none }

/-- Goal used by the C5 witness: latest value 5000, target 10000. -/
def c5WitnessGoal : Goal :=
  { status := Status.active, progress := JNum.fin 0, current := JsVal.undefined,
    target := JsVal.num 10000, frequency := Freq.daily, streak := 0,
    checkIns := [{ date := 0, completed := true, value := JsVal.num 5000, notes := none }],
    completedDate := none }

/-- Check-in list of the C6 counterexample: two completed check-ins one day
apart under custom cadence. -/
def c6CheckIns : List CheckIn := [mkCheckIn dayMs true, mkCheckIn 0 true]

/-- Goal used by the C7 counterexample: status completed, non-parsing plain
target, cached progress 50. -/
def c7Goal : Goal :=
  { status := Status.completed, progress := JNum.fin 50, current := JsVal.undefined,
    target := JsVal.strBad, frequency := Freq.daily, streak := 0,
    checkIns := [{ date := 0, completed := true, value := JsVal.strBad, notes := none }],
    completedDate := none }

/-- Goal used by the C7 witness: active goal, plain target that fails to
parse, cached progress 42. -/
def c7WitnessGoal : Goal :=
  { status := Status.active, progress := JNum.fin 42, current := JsVal.undefined,
    target := JsVal.strBad, frequency := Freq.daily, streak := 0,
    checkIns := [{ date := 0, completed := true, value := JsVal.num 5, notes := none }],
    completedDate := none }

/-- Metrics of the C8 counterexample: six sleep samples, exactly two
consecutive pairs (of the five) differing by more than 1.5 hours. -/
def c8Metrics : List Metric :=
  [{ type := MetricType.sleep, value := JsVal.num 8 },
   { type := MetricType.sleep, value := JsVal.num 10 },
   { type := MetricType.sleep, value := JsVal.num 10 },
   { type := MetricType.sleep, value := JsVal.num 10 },
   { type := MetricType.sleep, value := JsVal.num 10 },
   { type := MetricType.sleep, value := JsVal.num 8 }]

/-- Goal used by the C9 counterexample: `checkIns` stored in ascending date
order, so the in-place sort visibly reorders it. -/
def c9Goal : Goal :=
  { status := Status.active, progress := JNum.fin 0, current := JsVal.undefined,
    target := JsVal.num 10, frequency := Freq.daily, streak := 0,
    checkIns := [{ date := 0, completed := true, value := JsVal.num 1, notes := none },
                 { date := dayMs, completed := true, value := JsVal.num 2, notes := none }],
    completedDate := none }

/-- Goal used by the C10 counterexample: status completed but target `null`
(falsy), cached progress 50. -/
def c10Goal : Goal :=
  { status := Status.completed, progress := JNum.fin 50, current := JsVal.undefined,
    target := JsVal.jsnull, frequency := Freq.daily, streak := 0,
    checkIns := [], completedDate := none }

/-- Goal used by the C10 witness: status completed, truthy target, empty
check-in list. -/
def c10WitnessGoal : Goal :=
  { status := Status.completed, progress := JNum.fin 50, current := JsVal.undefined,
    target := JsVal.num 10, frequency := Freq.daily, streak := 0,
    checkIns := [], completedDate := none }

/-!
## Sorting lemmas
-/

theorem sortDesc_perm (l : List CheckIn) : List.Perm (sortDesc l) l :=
  List.perm_insertionSort dateGE l

theorem sortDesc_sorted (l : List CheckIn) : List.Sorted dateGE (sortDesc l) :=
  List.sorted_insertionSort dateGE l

theorem sortDesc_idem (l : List CheckIn) : sortDesc (sortDesc l) = sortDesc l :=
  (sortDesc_sorted l).insertionSort_eq

theorem sortDesc_eq_nil_iff {l : List CheckIn} : sortDesc l = [] ↔ l = [] := by
  constructor
  · intro h
    have hlen := (sortDesc_perm l).length_eq
    rw [h] at hlen
    exact List.length_eq_zero.mp hlen.symm
  · intro h; subst h; rfl

/-!
## Structural lemmas about `calculateProgress`
-/

theorem calcCore_target_falsy (t c : JsVal) (s : Status) (p : JNum) (ci : List CheckIn)
    (h : truthy t = false) : calcCoreFields t c s p ci = p := by
  unfold calcCoreFields
  rw [h]
  simp

theorem calcCore_completed (t c : JsVal) (p : JNum) (ci : List CheckIn)
    (h : truthy t = true) : calcCoreFields t c Status.completed p ci = JNum.fin 100 := by
  unfold calcCoreFields
  rw [h]
  simp

theorem calcCore_nil (t c : JsVal) (s : Status) (p : JNum)
    (h : truthy t = true) (hs : s ≠ Status.completed) :
    calcCoreFields t c s p [] = JNum.fin 0 := by
  unfold calcCoreFields
  rw [h]
  simp [hs, sortDesc]

theorem calcCore_cons (t c : JsVal) (s : Status) (p : JNum) (ci : List CheckIn)
    (latest : CheckIn) (rest : List CheckIn)
    (h : truthy t = true) (hs : s ≠ Status.completed) (hsort : sortDesc ci = latest :: rest) :
    calcCoreFields t c s p ci = latestBranch c latest.value t p := by
  unfold calcCoreFields
  rw [h, hsort]
  simp [hs]

theorem latestBranch_stable (c lv t : JsVal) (p : JNum) :
    latestBranch c lv t (latestBranch c lv t p) = latestBranch c lv t p := by
  unfold latestBranch objBranch numBranch
  by_cases h1 : isObj c = true
  · by_cases h2 : (truthy (getS t) && truthy (getD t)) = true <;> simp [h1, h2]
  · simp only [h1, if_neg, Bool.false_eq_true, not_false_iff, if_false]
    cases parseF lv <;> cases parseF t <;> rfl

theorem calcCore_progress_stable (t c : JsVal) (s : Status) (p : JNum) (ci : List CheckIn) :
    calcCoreFields t c s (calcCoreFields t c s p ci) ci = calcCoreFields t c s p ci := by
  by_cases h1 : truthy t = true
  · by_cases h2 : s = Status.completed
    · subst h2
      have e1 := calcCore_completed t c p ci h1
      rw [e1, calcCore_completed t c (JNum.fin 100) ci h1]
    · cases hsort : sortDesc ci with
      | nil =>
        have hnil : ci = [] := sortDesc_eq_nil_iff.mp hsort
        subst hnil
        have e1 := calcCore_nil t c s p h1 h2
        rw [e1, calcCore_nil t c s (JNum.fin 0) h1 h2]
      | cons latest rest =>
        have e1 := calcCore_cons t c s p ci latest rest h1 h2 hsort
        rw [e1, calcCore_cons t c s (latestBranch c latest.value t p) ci latest rest h1 h2 hsort,
          latestBranch_stable]
  · have h1f : truthy t = false := by simpa using h1
    have e1 := calcCore_target_falsy t c s p ci h1f
    rw [e1]
    exact e1

/-- Function `jmin100` never exceeds 100; if `>= 100` holds of its result, the result
is exactly 100. -/
theorem jge100_jmin100 (x : JNum) (h : jge100 (jmin100 x) = true) :
    jmin100 x = JNum.fin 100 := by
  cases x with
  | nan => simp [jmin100, jge100] at h
  | inf => rfl
  | ninf => simp [jmin100, jge100] at h
  | fin a =>
    simp only [jmin100, jge100, decide_eq_true_eq] at h ⊢
    have hmin : min a 100 = 100 := le_antisymm (min_le_right a 100) h
    rw [hmin]

theorem numBranch_cap (cv tv : JNum) (p : ℚ) (hp : p ≤ 100)
    (h : jge100 (numBranch cv tv (JNum.fin p)) = true) :
    numBranch cv tv (JNum.fin p) = JNum.fin 100 := by
  cases cv <;> cases tv <;>
    simp only [numBranch] at h ⊢ <;>
    first
      | exact jge100_jmin100 _ h
      | (simp only [jge100, decide_eq_true_eq] at h
         exact congrArg JNum.fin (le_antisymm hp h))

theorem objBranch_cap (lv t : JsVal) (p : ℚ) (hp : p ≤ 100)
    (h : jge100 (objBranch lv t (JNum.fin p)) = true) :
    objBranch lv t (JNum.fin p) = JNum.fin 100 := by
  unfold objBranch at h ⊢
  by_cases h2 : (truthy (getS t) && truthy (getD t)) = true
  · rw [if_pos h2] at h ⊢
    exact jge100_jmin100 _ h
  · rw [if_neg h2] at h ⊢
    simp only [jge100, decide_eq_true_eq] at h
    exact congrArg JNum.fin (le_antisymm hp h)

theorem latestBranch_cap (c lv t : JsVal) (p : ℚ) (hp : p ≤ 100)
    (h : jge100 (latestBranch c lv t (JNum.fin p)) = true) :
    latestBranch c lv t (JNum.fin p) = JNum.fin 100 := by
  unfold latestBranch at h ⊢
  by_cases h1 : isObj c = true
  · rw [if_pos h1] at h ⊢
    exact objBranch_cap lv t p hp h
  · rw [if_neg h1] at h ⊢
    exact numBranch_cap _ _ p hp h

theorem getS_not_obj (v : JsVal) (h : isObj v = false) : getS v = JsVal.undefined := by
  cases v <;> first | rfl | simp [isObj] at h

/-!
## Claim C2
-/

/-- C2 (amended): `calculateProgress` on an empty check-in list returns 0
provided the target is truthy and the goal is not already completed.  (As
stated the claim fails: a falsy target, or completed status, short-circuits
before the empty-list check.) -/
theorem C2_empty_checkIns_progress_zero (g : Goal)
    (ht : truthy g.target = true) (hs : g.status ≠ Status.completed)
    (he : g.checkIns = []) : calculateProgress g = JNum.fin 0 := by
  unfold calculateProgress
  rw [he]
  exact calcCore_nil g.target g.current g.status g.progress ht hs

/-- C2 counterexample: a numeric target 0 is falsy, so with an empty check-in
list the cached progress (37) is returned instead of 0. -/
theorem C2_counterexample :
    c2Goal.checkIns = [] ∧ calculateProgress c2Goal ≠ JNum.fin 0 := by decide

/-- C2 witness. -/
theorem C2_witness : calculateProgress c2WitnessGoal = JNum.fin 0 :=
  C2_empty_checkIns_progress_zero c2WitnessGoal (by decide) (by decide) rfl

/-!
## Claim C10
-/

/-- C10 (amended): a completed goal gets progress 100 from
`calculateProgress`, provided its target is truthy.  (As stated the claim
fails: the falsy-target check precedes the completed-status check.) -/
theorem C10_completed_progress_100 (g : Goal)
    (ht : truthy g.target = true) (hs : g.status = Status.completed) :
    calculateProgress g = JNum.fin 100 := by
  unfold calculateProgress
  rw [hs]
  exact calcCore_completed g.target g.current g.progress g.checkIns ht

/-- C10 counterexample: completed status but `null` target; the cached
progress (50) is returned, not 100. -/
theorem C10_counterexample :
    c10Goal.status = Status.completed ∧ calculateProgress c10Goal ≠ JNum.fin 100 := by decide

/-- C10 witness. -/
theorem C10_witness : calculateProgress c10WitnessGoal = JNum.fin 100 :=
  C10_completed_progress_100 c10WitnessGoal (by decide) rfl

/-!
## Claim C7
-/

/-- C7 (amended): for a goal that is not completed, with a plain (non-pair)
target, if the latest check-in value or the target fails to parse as a
number then `calculateProgress` returns the cached progress unchanged (the
function is total: no error is raised).  (As stated the claim fails: a
completed goal returns 100 regardless of parse failures.) -/
theorem C7_parse_failure_returns_cached (g : Goal) (latest : CheckIn) (rest : List CheckIn)
    (hs : g.status ≠ Status.completed)
    (hplain : isObj g.target = false)
    (hsort : sortDesc g.checkIns = latest :: rest)
    (hnan : parseF latest.value = JNum.nan ∨ parseF g.target = JNum.nan) :
    calculateProgress g = g.progress := by
  unfold calculateProgress
  by_cases ht : truthy g.target = true
  · rw [calcCore_cons g.target g.current g.status g.progress g.checkIns latest rest ht hs hsort]
    unfold latestBranch
    by_cases hobj : isObj g.current = true
    · rw [if_pos hobj]
      unfold objBranch
      rw [getS_not_obj g.target hplain]
      simp [truthy]
    · rw [if_neg hobj]
      rcases hnan with h | h
      · rw [h]
        cases parseF g.target <;> rfl
      · rw [h]
        cases parseF latest.value <;> rfl
  · have htf : truthy g.target = false := by simpa using ht
    exact calcCore_target_falsy g.target g.current g.status g.progress g.checkIns htf

/-- C7 counterexample: a completed goal whose plain target does not parse
returns 100, not the cached progress 50. -/
theorem C7_counterexample :
    isObj c7Goal.target = false ∧ parseF c7Goal.target = JNum.nan ∧
      calculateProgress c7Goal ≠ c7Goal.progress := by decide

/-- C7 witness. -/
theorem C7_witness : calculateProgress c7WitnessGoal = c7WitnessGoal.progress :=
  C7_parse_failure_returns_cached c7WitnessGoal
    { date := 0, completed := true, value := JsVal.num 5, notes := none } []
    (by decide) rfl rfl (Or.inr rfl)

/-!
## Claim C6
-/

theorem streakLoop_custom_daily (l : List CheckIn) :
    ∀ prev : ℤ, streakLoop Freq.custom prev l = streakLoop Freq.daily prev l := by
  induction l with
  | nil => intro prev; rfl
  | cons c cs ih =>
    intro prev
    unfold streakLoop
    by_cases hc : (c.completed = false ∨ dayDiff prev c.date ≠ expectedDiff Freq.custom)
    · rw [if_pos hc, if_pos (by simpa [expectedDiff] using hc)]
    · rw [if_neg hc, if_neg (by simpa [expectedDiff] using hc), ih]

/-- C6 (amended): custom cadence is given the default expected gap of 1 by
the code, so `updateStreak` under custom cadence behaves exactly like daily
cadence; the streak is not capped at 1.  (As stated the claim fails: two
completed check-ins one day apart yield streak 2.) -/
theorem C6_custom_equals_daily (l : List CheckIn) :
    updateStreakList l Freq.custom = updateStreakList l Freq.daily := by
  unfold updateStreakList
  cases sortDesc l with
  | nil => rfl
  | cons latest rest =>
    dsimp only
    by_cases hc : latest.completed = false
    · rw [if_pos hc, if_pos hc]
    · rw [if_neg hc, if_neg hc, streakLoop_custom_daily rest latest.date]

/-- C6 counterexample: two completed custom-cadence check-ins one day apart
give streak 2, which is not at most 1. -/
theorem C6_counterexample :
    c6CheckIns.length = 2 ∧ updateStreakList c6CheckIns Freq.custom = 2 ∧
      ¬updateStreakList c6CheckIns Freq.custom ≤ 1 := by decide

/-!
## Claim C9
-/

/-- C9 (amended): the two methods mutate nothing except the `checkIns` array,
which they sort in place (a permutation of itself); every other field is
unchanged.  (As stated the claim fails: `Array.prototype.sort` reorders
`checkIns` in place.) -/
theorem C9_methods_frame (g : Goal) :
    (List.Perm (calculateProgressRun g).1.checkIns g.checkIns ∧
      (calculateProgressRun g).1.status = g.status ∧
      (calculateProgressRun g).1.progress = g.progress ∧
      (calculateProgressRun g).1.current = g.current ∧
      (calculateProgressRun g).1.target = g.target ∧
      (calculateProgressRun g).1.frequency = g.frequency ∧
      (calculateProgressRun g).1.streak = g.streak ∧
      (calculateProgressRun g).1.completedDate = g.completedDate) ∧
    (List.Perm (updateStreakRun g).1.checkIns g.checkIns ∧
      (updateStreakRun g).1.status = g.status ∧
      (updateStreakRun g).1.progress = g.progress ∧
      (updateStreakRun g).1.current = g.current ∧
      (updateStreakRun g).1.target = g.target ∧
      (updateStreakRun g).1.frequency = g.frequency ∧
      (updateStreakRun g).1.streak = g.streak ∧
      (updateStreakRun g).1.completedDate = g.completedDate) := by
  constructor
  · unfold calculateProgressRun
    by_cases h : (truthy g.target = false ∨ g.status = Status.completed ∨
      g.checkIns.isEmpty)
    · rw [if_pos h]
      exact ⟨List.Perm.refl _, rfl, rfl, rfl, rfl, rfl, rfl, rfl⟩
    · rw [if_neg h]
      exact ⟨sortDesc_perm _, rfl, rfl, rfl, rfl, rfl, rfl, rfl⟩
  · unfold updateStreakRun
    by_cases h : g.checkIns.isEmpty = true
    · rw [if_pos h]
      exact ⟨List.Perm.refl _, rfl, rfl, rfl, rfl, rfl, rfl, rfl⟩
    · rw [if_neg h]
      exact ⟨sortDesc_perm _, rfl, rfl, rfl, rfl, rfl, rfl, rfl⟩

/-- C9 counterexample: on a goal whose check-ins are stored oldest-first,
both method calls visibly change the goal (the array is reordered). -/
theorem C9_counterexample :
    (calculateProgressRun c9Goal).1 ≠ c9Goal ∧ (updateStreakRun c9Goal).1 ≠ c9Goal := by
  decide

/-!
## Claim C5
-/

/-- C5 (amended): with a cached progress already in [0, 100] (the schema
bound), a positive numeric target and a nonnegative numeric latest check-in
value, `calculateProgress` returns a value in [0, 100].  (As stated the
claim fails: the result is only capped above at 100; a negative check-in
value produces a negative result.) -/
theorem C5_progress_in_range (g : Goal) (p cv tv : ℚ) (latest : CheckIn)
    (rest : List CheckIn)
    (hp : g.progress = JNum.fin p) (hp0 : 0 ≤ p) (hp1 : p ≤ 100)
    (htv : g.target = JsVal.num tv) (htpos : 0 < tv)
    (hsort : sortDesc g.checkIns = latest :: rest)
    (hcv : latest.value = JsVal.num cv) (hcv0 : 0 ≤ cv) :
    ∃ q : ℚ, calculateProgress g = JNum.fin q ∧ 0 ≤ q ∧ q ≤ 100 := by
  have ht : truthy g.target = true := by
    rw [htv]
    simp only [truthy, decide_eq_true_eq]
    exact htpos.ne'
  unfold calculateProgress
  by_cases hs : g.status = Status.completed
  · rw [hs, calcCore_completed g.target g.current g.progress g.checkIns ht]
    exact ⟨100, rfl, by norm_num, le_refl _⟩
  · rw [calcCore_cons g.target g.current g.status g.progress g.checkIns latest rest ht hs hsort]
    unfold latestBranch
    by_cases hobj : isObj g.current = true
    · rw [if_pos hobj]
      unfold objBranch
      rw [htv]
      simp only [getS, truthy, Bool.false_and, Bool.false_eq_true, if_false]
      exact ⟨p, hp, hp0, hp1⟩
    · rw [if_neg hobj, hcv, htv]
      have hdiv : jdiv (JNum.fin cv) (JNum.fin tv) = JNum.fin (cv / tv) := by
        simp only [jdiv]
        rw [if_neg htpos.ne']
      have e : numBranch (parseF (JsVal.num cv)) (parseF (JsVal.num tv)) g.progress
          = JNum.fin (min ((jsRoundQ (cv / tv * 100) : ℤ) : ℚ) 100) := by
        show numFormula cv tv = _
        unfold numFormula
        rw [hdiv]
        rfl
      rw [e]
      refine ⟨_, rfl, le_min ?_ (by norm_num), min_le_right _ _⟩
      have hx : (0 : ℚ) ≤ cv / tv * 100 :=
        mul_nonneg (div_nonneg hcv0 htpos.le) (by norm_num)
      have hr : (0 : ℤ) ≤ jsRoundQ (cv / tv * 100) := by
        unfold jsRoundQ
        exact Int.le_floor.mpr (by push_cast; linarith)
      exact_mod_cast hr

/-- C5 counterexample: latest value -5 with target 10 gives progress -50,
outside [0, 100]. -/
theorem C5_counterexample :
    calculateProgress c5Goal = JNum.fin (-50) ∧ ((-50 : ℚ) < 0) := by decide

/-- C5 witness. -/
theorem C5_witness :
    ∃ q : ℚ, calculateProgress c5WitnessGoal = JNum.fin q ∧ 0 ≤ q ∧ q ≤ 100 :=
  C5_progress_in_range c5WitnessGoal 0 5000 10000
    { date := 0, completed := true, value := JsVal.num 5000, notes := none } []
    rfl (by norm_num) (by norm_num) rfl (by norm_num) rfl rfl (by norm_num)

/-!
## Claim C3
-/

theorem streakLoop_eq_claimWalk (f : Freq) (gap : ℤ) (hgap : expectedDiff f = gap)
    (l : List CheckIn) : ∀ prev : ℤ, streakLoop f prev l = claimWalk gap prev l := by
  induction l with
  | nil => intro prev; rfl
  | cons c cs ih =>
    intro prev
    unfold streakLoop claimWalk
    rw [hgap]
    by_cases hc : c.completed = true
    · by_cases hd : dayDiff prev c.date = gap
      · rw [if_neg (by simp [hc, hd]), if_pos ⟨hc, hd⟩, ih]
      · rw [if_pos (Or.inr hd), if_neg (fun h => hd h.2)]
    · have hcf : c.completed = false := by simpa using hc
      rw [if_pos (Or.inl hcf), if_neg (fun h => hc h.1)]

/-- C3: `updateStreak` computes exactly the walk described by the spec - 0 on
an empty list or an incomplete latest check-in, otherwise 1 plus the number
of successive completed check-ins whose day-gap equals the expected gap
(1 daily, 7 weekly, 30 monthly) - and on five consecutive completed daily
check-ins it returns 5. -/
theorem C3_updateStreak_matches_spec :
    (∀ (l : List CheckIn) (f : Freq) (gap : ℤ), claimExpectedGap f = some gap →
        updateStreakList l f = claimStreakGap l gap) ∧
      updateStreakList dailyFiveExample Freq.daily = 5 := by
  constructor
  · intro l f gap hgap
    have hexp : expectedDiff f = gap := by
      cases f with
      | daily =>
        simp only [claimExpectedGap, Option.some.injEq] at hgap
        rw [← hgap]; rfl
      | weekly =>
        simp only [claimExpectedGap, Option.some.injEq] at hgap
        rw [← hgap]; rfl
      | monthly =>
        simp only [claimExpectedGap, Option.some.injEq] at hgap
        rw [← hgap]; rfl
      | custom => simp [claimExpectedGap] at hgap
    unfold updateStreakList claimStreakGap
    cases sortDesc l with
    | nil => rfl
    | cons latest rest =>
      dsimp only
      by_cases hc : latest.completed = true
      · rw [if_neg (by simp [hc]), if_pos hc, streakLoop_eq_claimWalk f gap hexp]
      · have hcf : latest.completed = false := by simpa using hc
        rw [if_pos hcf, if_neg hc]
  · decide

/-- C3 witness. -/
theorem C3_witness :
    updateStreakList c3Goal.checkIns Freq.daily = claimStreakGap c3Goal.checkIns 1 :=
  C3_updateStreak_matches_spec.1 c3Goal.checkIns Freq.daily 1 rfl

/-!
## Claim C4
-/

theorem hrModifier_of_empty (metrics : List Metric)
    (h : (metrics.filter (fun m => m.type = MetricType.heart_rate)).isEmpty = true) :
    hrModifier metrics = 0 := by
  unfold hrModifier
  rw [if_neg]
  rw [List.isEmpty_iff] at h
  simp [h]

theorem bpModifier_of_empty (metrics : List Metric)
    (h : (metrics.filter (fun m => m.type = MetricType.blood_pressure)).isEmpty = true) :
    bpModifier metrics = 0 := by
  unfold bpModifier
  rw [if_neg]
  rw [List.isEmpty_iff] at h
  simp [h]

theorem sleepModifier_of_empty (metrics : List Metric)
    (h : (metrics.filter (fun m => m.type = MetricType.sleep)).isEmpty = true) :
    sleepModifier metrics = 0 := by
  unfold sleepModifier
  rw [if_neg]
  rw [List.isEmpty_iff] at h
  simp [h]

theorem stepModifier_of_empty (metrics : List Metric)
    (h : (metrics.filter (fun m => m.type = MetricType.steps)).isEmpty = true) :
    stepModifier metrics = 0 := by
  unfold stepModifier
  rw [if_neg]
  rw [List.isEmpty_iff] at h
  simp [h]

theorem specContribution_hr (metrics : List Metric) :
    specContribution metrics MetricType.heart_rate = hrModifier metrics := by
  unfold specContribution
  by_cases h : (metrics.filter (fun m => m.type = MetricType.heart_rate)).isEmpty = true
  · rw [if_pos h]
    exact (hrModifier_of_empty metrics h).symm
  · rw [if_neg h]

theorem specContribution_bp (metrics : List Metric) :
    specContribution metrics MetricType.blood_pressure = bpModifier metrics := by
  unfold specContribution
  by_cases h : (metrics.filter (fun m => m.type = MetricType.blood_pressure)).isEmpty = true
  · rw [if_pos h]
    exact (bpModifier_of_empty metrics h).symm
  · rw [if_neg h]

theorem specContribution_sleep (metrics : List Metric) :
    specContribution metrics MetricType.sleep = sleepModifier metrics := by
  unfold specContribution
  by_cases h : (metrics.filter (fun m => m.type = MetricType.sleep)).isEmpty = true
  · rw [if_pos h]
    exact (sleepModifier_of_empty metrics h).symm
  · rw [if_neg h]

theorem specContribution_steps (metrics : List Metric) :
    specContribution metrics MetricType.steps = stepModifier metrics := by
  unfold specContribution
  by_cases h : (metrics.filter (fun m => m.type = MetricType.steps)).isEmpty = true
  · rw [if_pos h]
    exact (stepModifier_of_empty metrics h).symm
  · rw [if_neg h]

/-- C4: the computed health score equals the spec formula
`round(clamp(70 + sum of per-category modifiers, 0, 100))`, where a category
contributes only if at least one sample of its type exists; on the example
metrics (heart-rate average 70, sleep average 8, steps average 11000, no
blood pressure) the score is 93. -/
theorem C4_health_score_matches_spec :
    (∀ metrics : List Metric, calculateHealthScore metrics = specHealthScore metrics) ∧
      calculateHealthScore c4Metrics = 93 := by
  constructor
  · intro metrics
    unfold calculateHealthScore specHealthScore specClamp
    have hsum : ([MetricType.heart_rate, MetricType.blood_pressure, MetricType.sleep,
        MetricType.steps].map (specContribution metrics)).sum
        = hrModifier metrics + bpModifier metrics + sleepModifier metrics
            + stepModifier metrics := by
      simp only [List.map_cons, List.map_nil, List.sum_cons, List.sum_nil,
        specContribution_hr, specContribution_bp, specContribution_sleep,
        specContribution_steps]
      ring
    rw [hsum]
  · decide

/-!
## Claim C8
-/

/-- C8 (amended): the sleep-consistency concern is emitted exactly when there
are more than 3 sleep samples and the number of consecutive pairs differing
by more than 1.5 hours exceeds one-third of the number of samples (not of
pairs).  (As stated the claim fails: with 6 samples and 2 inconsistent pairs
out of 5, more than a third of the pairs differ but no concern is emitted.) -/
theorem C8_sleep_concern_iff (metrics : List Metric) :
    Concern.sleepInconsistent ∈ identifyConcerns metrics ↔
      ((metrics.filter (fun m => m.type = MetricType.sleep)).length > 3 ∧
        (countInconsistent (metrics.filter (fun m => m.type = MetricType.sleep)) : ℚ) >
          ((metrics.filter (fun m => m.type = MetricType.sleep)).length : ℚ) / 3) := by
  unfold identifyConcerns
  dsimp only
  split_ifs with h1 h2 h3 h4 h5 h6 h7 <;>
    simp_all [List.mem_append]

/-- C8 counterexample: six sleep samples 8, 10, 10, 10, 10, 8; two of the
five consecutive pairs differ by 2 hours (more than a third of the pairs),
yet the concern is not emitted. -/
theorem C8_counterexample :
    Concern.sleepInconsistent ∉ identifyConcerns c8Metrics ∧ claimSleepFlag c8Metrics := by
  decide

/-!
## Claim C1
-/

theorem calcCore_sortDesc (t c : JsVal) (s : Status) (p : JNum) (ci : List CheckIn) :
    calcCoreFields t c s p (sortDesc ci) = calcCoreFields t c s p ci := by
  unfold calcCoreFields
  rw [sortDesc_idem]

theorem sortDesc_isEmpty (l : List CheckIn) : (sortDesc l).isEmpty = l.isEmpty := by
  cases hl : l with
  | nil => rfl
  | cons a as =>
    have hne : sortDesc (a :: as) ≠ [] := fun h => by simpa using sortDesc_eq_nil_iff.mp h
    cases hs : sortDesc (a :: as) with
    | nil => exact absurd hs hne
    | cons b bs => rfl

theorem calcCore_cap (t c : JsVal) (s : Status) (p : ℚ) (ci : List CheckIn)
    (ht : truthy t = true) (hp1 : p ≤ 100)
    (h : jge100 (calcCoreFields t c s (JNum.fin p) ci) = true) :
    calcCoreFields t c s (JNum.fin p) ci = JNum.fin 100 := by
  by_cases hs : s = Status.completed
  · subst hs
    exact calcCore_completed t c _ ci ht
  · cases hsort : sortDesc ci with
    | nil =>
      have hnil : ci = [] := sortDesc_eq_nil_iff.mp hsort
      subst hnil
      rw [calcCore_nil t c s _ ht hs] at h
      exact absurd h (by decide)
    | cons latest rest =>
      rw [calcCore_cons t c s _ ci latest rest ht hs hsort] at h ⊢
      exact latestBranch_cap c latest.value t p hp1 h

/-- C1 (amended): after every check-in append through `addCheckIn`, the
cached `progress` equals `calculateProgress` of the resulting goal state,
provided the goal's cached progress satisfied the schema bound
(`progress <= 100`) beforehand.  (As stated the claim fails: `updateGoal`
writes the request body with `findByIdAndUpdate` and recomputes nothing, so
a goal update can leave `progress` different from `calculateProgress`.) -/
theorem C1_addCheckIn_invariant (g : Goal) (d : ℤ) (b : Bool) (v : JsVal)
    (nt : Option String) (now : ℤ) (p : ℚ)
    (hp : g.progress = JNum.fin p) (hp1 : p ≤ 100) :
    (addCheckIn g d b v nt now).progress =
      calculateProgress (addCheckIn g d b v nt now) := by
  obtain ⟨st, pr, cur, tgt, fr, sk, ci, cd⟩ := g
  dsimp only at hp
  subst hp
  unfold addCheckIn calculateProgressRun updateStreakRun updateStreak calculateProgress
  dsimp only
  generalize ({ date := d, completed := b, value := v, notes := nt } : CheckIn) = nc
  have hne : (ci ++ [nc]).isEmpty = false := by cases ci <;> rfl
  have hni : ¬((ci ++ [nc]).isEmpty = true) := by
    rw [hne]; exact Bool.false_ne_true
  have hni2 : ¬((sortDesc (ci ++ [nc])).isEmpty = true) := by
    rw [sortDesc_isEmpty, hne]; exact Bool.false_ne_true
  by_cases hG : (truthy tgt = false ∨ st = Status.completed ∨ (ci ++ [nc]).isEmpty = true)
  · rw [if_pos hG]
    dsimp only
    rw [if_neg hni]
    dsimp only
    by_cases hflip : (jge100 (calcCoreFields tgt cur st (JNum.fin p) (ci ++ [nc])) && b) = true
    · rw [if_pos hflip]
      dsimp only
      rw [calcCore_sortDesc]
      by_cases ht : truthy tgt = true
      · rw [calcCore_completed _ _ _ _ ht]
        have hsplit : jge100 (calcCoreFields tgt cur st (JNum.fin p) (ci ++ [nc])) = true
            ∧ b = true := by simpa using hflip
        exact calcCore_cap tgt cur st p _ ht hp1 hsplit.1
      · have htf : truthy tgt = false := by simpa using ht
        exact (calcCore_target_falsy _ _ _ _ _ htf).symm
    · rw [if_neg hflip]
      dsimp only
      rw [calcCore_sortDesc]
      exact (calcCore_progress_stable tgt cur st (JNum.fin p) _).symm
  · rw [if_neg hG]
    dsimp only
    rw [if_neg hni2]
    dsimp only
    by_cases hflip : (jge100 (calcCoreFields tgt cur st (JNum.fin p) (ci ++ [nc])) && b) = true
    · rw [if_pos hflip]
      dsimp only
      rw [calcCore_sortDesc, calcCore_sortDesc]
      by_cases ht : truthy tgt = true
      · rw [calcCore_completed _ _ _ _ ht]
        have hsplit : jge100 (calcCoreFields tgt cur st (JNum.fin p) (ci ++ [nc])) = true
            ∧ b = true := by simpa using hflip
        exact calcCore_cap tgt cur st p _ ht hp1 hsplit.1
      · have htf : truthy tgt = false := by simpa using ht
        exact (calcCore_target_falsy _ _ _ _ _ htf).symm
    · rw [if_neg hflip]
      dsimp only
      rw [calcCore_sortDesc, calcCore_sortDesc]
      exact (calcCore_progress_stable tgt cur st (JNum.fin p) _).symm

/-- C1 counterexample: the invariant holds for `c1Goal` (progress 50 =
calculateProgress), but after the `updateGoal` mutation changing the target
from 10 to 20 the cached progress (still 50) no longer equals
`calculateProgress` (now 25). -/
theorem C1_counterexample :
    calculateProgress c1Goal = c1Goal.progress ∧
      (updateGoal c1Goal c1Update).progress ≠
        calculateProgress (updateGoal c1Goal c1Update) := by decide

/-- C1 witness. -/
theorem C1_witness :
    (addCheckIn c1WitnessGoal 0 true (JsVal.num 5) none 0).progress =
      calculateProgress (addCheckIn c1WitnessGoal 0 true (JsVal.num 5) none 0) :=
  C1_addCheckIn_invariant c1WitnessGoal 0 true (JsVal.num 5) none 0 0 rfl (by norm_num)

end BurgerGang
